import Mathlib

/-!
# Axiom City — verification of the specification against the code

Shallow embedding of the Axiom City city-builder.  The data model
(`BuildingType`, `CityStats`, `TileData`, `Grid`, `ActiveDisaster`,
`GameEvent`, …) is translated from `src/Axiom City/types.ts`; the toolbar
button logic is translated from `ToolButton` in
`src/Axiom City/components/DetailedBuilding.tsx`; the error boundary is
translated from `src/unnamed/part_000`.  The simulation core (Economic
Simulator, Grid Store, Disaster Controller, Event Engine) is not part of
the visible sources, so those operations are modelled from the
specification, each marked `Modelled from the spec:` in its doc comment.
JavaScript numbers are embedded as rationals (`Rat`).
-/

namespace AxiomCity

-- ---------------------------------------------------------------------------
-- Enums, from src/Axiom City/types.ts
-- ---------------------------------------------------------------------------

/-- `enum BuildingType` from types.ts. -/
inductive BuildingType where
  | None | Road | Residential | Commercial | Industrial | Park | School
  | Hospital | Police | FireStation | GoldMine | Apartment | Mansion
  | Water | Bridge
  deriving DecidableEq, Repr

/-- `enum EconomicEvent` from types.ts. -/
inductive EconomicEvent where
  | None | Boom | Recession | Strike | Audit
  deriving DecidableEq, Repr

/-- `enum WeatherType` from types.ts. -/
inductive WeatherType where
  | Clear | Rain | Snow | AcidRain | Fog
  deriving DecidableEq, Repr

/-- `enum DisasterType` from types.ts. -/
inductive DisasterType where
  | None | Meteor | AlienInvasion | SolarFlare
  deriving DecidableEq, Repr

-- ---------------------------------------------------------------------------
-- Core data structures, from src/Axiom City/types.ts
-- ---------------------------------------------------------------------------

/-- `interface TileData` from types.ts. -/
structure TileData where
  x : Nat
  y : Nat
  buildingType : BuildingType
  deriving DecidableEq, Repr

/-- `type Grid = TileData[][]` from types.ts (rows indexed by `y`). -/
abbrev Grid := List (List TileData)

/-- `interface BuildingConfig` from types.ts.  The optional `maxAllowed`
field does not appear in the visible types.ts but is read by `ToolButton`
(`config.maxAllowed`) and is specified by the catalog section of the spec
("optional max-allowed instance count"), so it is included here. -/
structure BuildingConfig where
  type : BuildingType
  cost : Rat
  name : String
  description : String
  color : String
  popGen : Rat
  incomeGen : Rat
  maxAllowed : Option Nat
  deriving DecidableEq, Repr

/-- Budget details record of `CityStats.budget.details` from types.ts. -/
structure BudgetDetails where
  tax : Rat
  business : Rat
  «export» : Rat
  services : Rat
  welfare : Rat
  construction : Rat
  deriving DecidableEq, Repr

/-- `CityStats.budget` from types.ts. -/
structure Budget where
  income : Rat
  expenses : Rat
  details : BudgetDetails
  deriving DecidableEq, Repr

/-- `CityStats.demographics` from types.ts. -/
structure Demographics where
  children : Rat
  adults : Rat
  seniors : Rat
  deriving DecidableEq, Repr

/-- `CityStats.jobs` from types.ts. -/
structure Jobs where
  commercial : Rat
  industrial : Rat
  total : Rat
  unemployment : Rat
  deriving DecidableEq, Repr

/-- `interface CityStats` from types.ts. -/
structure CityStats where
  money : Rat
  population : Rat
  day : Rat
  housingCapacity : Rat
  taxRate : Rat
  happiness : Rat
  education : Rat
  safety : Rat
  budget : Budget
  demographics : Demographics
  jobs : Jobs
  shadowEconomy : Rat
  supplyLevel : Rat
  loanPrincipal : Rat
  loanInterestRate : Rat
  activeEvent : EconomicEvent
  eventDuration : Rat
  sharePrice : Rat
  investmentShares : Rat
  investmentAverageCost : Rat
  deriving DecidableEq, Repr

/-- Disaster stage union `'WARNING' | 'ACTIVE' | 'AFTERMATH'` from types.ts. -/
inductive DisasterStage where
  | WARNING | ACTIVE | AFTERMATH
  deriving DecidableEq, Repr

/-- `interface ActiveDisaster` from types.ts. -/
structure ActiveDisaster where
  type : DisasterType
  position : Option (Nat × Nat)
  startTime : Nat
  duration : Nat
  stage : DisasterStage
  deriving DecidableEq, Repr

-- ---------------------------------------------------------------------------
-- Building catalog (BUILDINGS).  The constants module is not among the
-- visible sources; modelled from the spec.
-- ---------------------------------------------------------------------------

/-- Modelled from the spec: the Building Catalog (`BUILDINGS` in
`../constants`, imported by DetailedBuilding.tsx but missing from the
visible sources): a static table mapping a building-type tag to cost,
population/income generation coefficients, display metadata and an
optional max-allowed instance count.  Concrete coefficients follow the
spec's examples (Residential cost 100, Commercial base income 50); caps,
where present, are positive counts. -/
def BUILDINGS : BuildingType → BuildingConfig
  | .None =>
      ⟨.None, 0, "Bulldoze", "Clear selection", "#888888", 0, 0, none⟩
  | .Road =>
      ⟨.Road, 10, "Road", "Connects buildings", "#1f2937", 0, 0, none⟩
  | .Residential =>
      ⟨.Residential, 100, "House", "Basic housing", "#fbbf24", 10, 2, none⟩
  | .Commercial =>
      ⟨.Commercial, 150, "Shop", "Generates income", "#60a5fa", 2, 50, none⟩
  | .Industrial =>
      ⟨.Industrial, 200, "Factory", "Export industry", "#9ca3af", 2, 40, none⟩
  | .Park =>
      ⟨.Park, 50, "Park", "Raises happiness", "#4ade80", 0, 0, none⟩
  | .School =>
      ⟨.School, 300, "School", "Raises education", "#c084fc", 0, 0, none⟩
  | .Hospital =>
      ⟨.Hospital, 400, "Hospital", "Health services", "#f87171", 0, 0, none⟩
  | .Police =>
      ⟨.Police, 350, "Police", "Raises safety", "#818cf8", 0, 0, none⟩
  | .FireStation =>
      ⟨.FireStation, 350, "Fire Station", "Emergency services", "#fb923c", 0, 0, none⟩
  | .GoldMine =>
      ⟨.GoldMine, 800, "Gold Mine", "High income, capped", "#eab308", 0, 120, some 3⟩
  | .Apartment =>
      ⟨.Apartment, 250, "Apartment", "Dense housing", "#38bdf8", 30, 5, none⟩
  | .Mansion =>
      ⟨.Mansion, 500, "Mansion", "Luxury housing, capped", "#f472b6", 6, 10, some 5⟩
  | .Water =>
      ⟨.Water, 0, "Water", "Terrain", "#0ea5e9", 0, 0, none⟩
  | .Bridge =>
      ⟨.Bridge, 120, "Bridge", "Crosses water", "#a8a29e", 0, 0, none⟩

-- ---------------------------------------------------------------------------
-- Generic list-update helpers for the 2D grid
-- ---------------------------------------------------------------------------

/-- Update the element at index `i` of a list with `f`, leaving other
elements (and out-of-range indices) unchanged. -/
def setAt {α : Type} : List α → Nat → (α → α) → List α
  | [], _, _ => []
  | a :: l, 0, f => f a :: l
  | a :: l, n + 1, f => a :: setAt l n f

/-- Tile lookup `grid[y][x]`. -/
def getTile (g : Grid) (x y : Nat) : Option TileData :=
  (g.get? y).bind fun row => row.get? x

/-- Overwrite the `buildingType` of the tile at `(x, y)`; out-of-range
coordinates leave the grid unchanged. -/
def setTileType (g : Grid) (x y : Nat) (t : BuildingType) : Grid :=
  setAt g y fun row => setAt row x fun tile => { tile with buildingType := t }

/-- Number of tiles in the grid currently holding building type `t`
(the count loop of `ToolButton` in DetailedBuilding.tsx). -/
def countType (g : Grid) (t : BuildingType) : Nat :=
  (g.map fun row => (row.filter fun tile => tile.buildingType = t).length).sum

/-- A fresh `w × h` grid of empty tiles (all `BuildingType.None`). -/
def mkEmptyGrid (w h : Nat) : Grid :=
  (List.range h).map fun y => (List.range w).map fun x => ⟨x, y, BuildingType.None⟩

-- ---------------------------------------------------------------------------
-- Grid Store.  The store module is not among the visible sources;
-- modelled from the spec §4.1.
-- ---------------------------------------------------------------------------

/-- Placement failures of the Grid Store (spec §4.1 / §7). -/
inductive PlaceError where
  | InvalidPlacement | CapacityExceeded
  deriving DecidableEq, Repr

/-- Demolition failure of the Grid Store (spec §4.1). -/
inductive DemolishError where
  | NothingToDemolish
  deriving DecidableEq, Repr

/-- Modelled from the spec: `place(x, y, type)` of the Grid Store (the
store module is missing from the visible sources).  Fails with
`InvalidPlacement` if `(x,y)` is out of range, the tile is already
occupied, or the catalog cost exceeds the available money (supplied by
the caller); fails with `CapacityExceeded` if the catalog's max-allowed
count for `type` is already reached.  On success it only mutates
occupancy — the money debit is the caller's side of the transaction.
Road adjacency is never consulted. -/
def place (g : Grid) (x y : Nat) (t : BuildingType) (money : Rat) :
    Except PlaceError Grid :=
  match getTile g x y with
  | none => .error .InvalidPlacement
  | some tile =>
    if tile.buildingType ≠ BuildingType.None then .error .InvalidPlacement
    else if money < (BUILDINGS t).cost then .error .InvalidPlacement
    else
      match (BUILDINGS t).maxAllowed with
      | some m =>
          if m ≤ countType g t then .error .CapacityExceeded
          else .ok (setTileType g x y t)
      | none => .ok (setTileType g x y t)

/-- Modelled from the spec: `demolish(x, y)` of the Grid Store (the store
module is missing from the visible sources).  Fails with
`NothingToDemolish` if the tile is already empty (or out of range);
otherwise clears the tile's occupancy.  Money is untouched: demolition
carries no refund. -/
def demolish (g : Grid) (x y : Nat) : Except DemolishError Grid :=
  match getTile g x y with
  | none => .error .NothingToDemolish
  | some tile =>
    if tile.buildingType = BuildingType.None then .error .NothingToDemolish
    else .ok (setTileType g x y BuildingType.None)

/-- The caller-visible slice of state for a place/demolish transaction:
grid occupancy plus the treasury. -/
structure CityState where
  grid : Grid
  money : Rat
  deriving DecidableEq, Repr

/-- Modelled from the spec: the caller's atomic "place" transaction —
grid mutation plus the matching money debit; both succeed or neither
does (spec §4.1). -/
def doPlace (s : CityState) (x y : Nat) (t : BuildingType) :
    Except PlaceError CityState :=
  (place s.grid x y t s.money).map fun g => ⟨g, s.money - (BUILDINGS t).cost⟩

/-- Modelled from the spec: the caller's "demolish" transaction — grid
mutation only, no refund of money spent on placement. -/
def doDemolish (s : CityState) (x y : Nat) : Except DemolishError CityState :=
  (demolish s.grid x y).map fun g => ⟨g, s.money⟩

-- ---------------------------------------------------------------------------
-- ToolButton disable logic, from src/Axiom City/components/DetailedBuilding.tsx
-- ---------------------------------------------------------------------------

/-- `canAfford` in `ToolButton`: `money >= config.cost`. -/
def canAfford (money : Rat) (t : BuildingType) : Bool :=
  (BUILDINGS t).cost ≤ money

/-- `isLimitReached` in `ToolButton`:
`config.maxAllowed ? count >= config.maxAllowed : false`.  A JavaScript
truthiness test guards the branch, so an absent cap — and a cap of `0`,
which is falsy — yields `false`. -/
def isLimitReached (t : BuildingType) (g : Grid) : Bool :=
  match (BUILDINGS t).maxAllowed with
  | some m => if m = 0 then false else m ≤ countType g t
  | none => false

/-- The `disabled` expression of `ToolButton`:
`(!canAfford && type !== BuildingType.None) || isLimitReached`. -/
def toolDisabled (t : BuildingType) (money : Rat) (g : Grid) : Bool :=
  (!canAfford money t && t ≠ BuildingType.None) || isLimitReached t g

/-- "The per-type max-allowed count is reached": the catalog carries a cap
for `t` and the grid already holds at least that many tiles of type `t`. -/
def capReached (t : BuildingType) (g : Grid) : Prop :=
  match (BUILDINGS t).maxAllowed with
  | some m => m ≤ countType g t
  | none => False

instance (t : BuildingType) (g : Grid) : Decidable (capReached t g) := by
  unfold capReached
  cases (BUILDINGS t).maxAllowed <;> infer_instance

-- ---------------------------------------------------------------------------
-- ErrorBoundary, from src/unnamed/part_000
-- ---------------------------------------------------------------------------

/-- `interface State` of the ErrorBoundary: `hasError` flag and the
caught error (its string form). -/
structure EBState where
  hasError : Bool
  error : Option String
  deriving DecidableEq, Repr

/-- The initial `state` of the ErrorBoundary: no error caught. -/
def initialEBState : EBState := ⟨false, none⟩

/-- `static getDerivedStateFromError(error)` from part_000:
returns the state holding the caught error. -/
def getDerivedStateFromError (e : String) : EBState := ⟨true, some e⟩

/-- What the ErrorBoundary's `render()` produces: either the crash-screen
fallback (whose `<pre>` shows `this.state.error?.toString()`) or the
unchanged `this.props.children`. -/
inductive EBRendered where
  | crashScreen (errorText : String)
  | childContent
  deriving DecidableEq, Repr

/-- `render()` from part_000: the crash screen with the error's string
form when `hasError`, otherwise the children unchanged.
`error?.toString()` on a `null` error renders nothing, embedded as `""`. -/
def renderEB (s : EBState) : EBRendered :=
  if s.hasError then .crashScreen (s.error.getD "") else .childContent

/-- Modelled from the spec: the React error-boundary contract that is
exercised by part_000 but lives in the React library — if rendering a
child throws, React calls `getDerivedStateFromError` on the thrown error
and re-renders with the returned state; if the child renders cleanly the
boundary's state is untouched.  The child render outcome is embedded as
`Except String Unit` (the thrown error's string form on the left). -/
def boundaryStep (s : EBState) (childResult : Except String Unit) : EBState :=
  match childResult with
  | .error e => getDerivedStateFromError e
  | .ok _ => s

-- ---------------------------------------------------------------------------
-- Disaster Controller.  Not among the visible sources; modelled from
-- the spec §4.3.
-- ---------------------------------------------------------------------------

/-- Modelled from the spec: the fixed warning window of the Disaster
Controller (`WARNING → ACTIVE` after a fixed number of ticks). -/
def warningWindow : Nat := 3

/-- Modelled from the spec: the cooldown window after which
`AFTERMATH → NONE` clears the slot. -/
def aftermathWindow : Nat := 5

/-- Modelled from the spec: the fixed active duration per disaster type. -/
def durationOf : DisasterType → Nat
  | .None => 1
  | .Meteor => 4
  | .AlienInvasion => 8
  | .SolarFlare => 6

/-- Modelled from the spec: one tick of the Disaster Controller's state
machine for the single disaster slot (`NONE → WARNING → ACTIVE →
AFTERMATH → NONE`).  `trigger` covers both the explicit request and the
per-tick roll; a trigger while a disaster is live in any stage is a
no-op, not an error.  On `NONE → WARNING` the type, position, start time
and per-type duration are recorded; later transitions fire once `now`
reaches the fixed window boundaries. -/
def disasterStep (slot : Option ActiveDisaster) (trigger : Bool)
    (ty : DisasterType) (pos : Option (Nat × Nat)) (now : Nat) :
    Option ActiveDisaster :=
  match slot with
  | none =>
      if trigger then some ⟨ty, pos, now, durationOf ty, .WARNING⟩ else none
  | some d =>
    match d.stage with
    | .WARNING =>
        if d.startTime + warningWindow ≤ now then some { d with stage := .ACTIVE }
        else some d
    | .ACTIVE =>
        if d.startTime + warningWindow + d.duration ≤ now then
          some { d with stage := .AFTERMATH }
        else some d
    | .AFTERMATH =>
        if d.startTime + warningWindow + d.duration + aftermathWindow ≤ now then
          none
        else some d

-- ---------------------------------------------------------------------------
-- Event Engine.  Not among the visible sources; modelled from the spec
-- §4.5 and the `AIEventResponse` consumed by EventModal.
-- ---------------------------------------------------------------------------

/-- `GameEvent.type` union from types.ts. -/
inductive GameEventType where
  | weird | disaster | opportunity
  deriving DecidableEq, Repr

/-- One choice of a `GameEvent` (types.ts): a label and an effect
description.  The visible type carries the applied effect as an
`onSelect` closure; the spec fixes its observable content as a numeric
effect payload, embedded here as the `effect` field. -/
structure EventChoice where
  label : String
  effectDescription : String
  effect : Rat
  deriving DecidableEq, Repr

/-- `interface GameEvent` from types.ts (choices as a list; the Event
Engine is responsible for there being exactly two). -/
structure GameEvent where
  id : String
  title : String
  description : String
  type : GameEventType
  choices : List EventChoice
  deriving DecidableEq, Repr

/-- `AIEventResponse` as consumed by EventModal (the `localAiService`
module is missing from the visible sources): a title, a description and
a yes/no choice pair, each side with a label, an effect description and —
per the spec's advisory contract — a numeric effect. -/
structure AIEventResponse where
  title : String
  description : String
  yesLabel : String
  yesEffect : String
  yesValue : Rat
  noLabel : String
  noEffect : String
  noValue : Rat
  deriving DecidableEq, Repr

/-- Modelled from the spec: conversion of an advisory event payload into
a `GameEvent` — always exactly the two labelled choices of the yes/no
pair. -/
def eventFromAI (eid : String) (r : AIEventResponse) : GameEvent :=
  ⟨eid, r.title, r.description, .weird,
    [⟨r.yesLabel, r.yesEffect, r.yesValue⟩, ⟨r.noLabel, r.noEffect, r.noValue⟩]⟩

/-- Modelled from the spec: the fixed pool of scripted events the Event
Engine draws from when the advisory call fails; every entry has exactly
two choices. -/
def scriptedEventPool : List GameEvent :=
  [⟨"ev-meteor-shower", "Strange Lights", "Objects streak across the sky.",
      .weird,
      [⟨"Investigate", "Spend funds on a survey", -50⟩,
       ⟨"Ignore", "Nothing happens", 0⟩]⟩,
   ⟨"ev-investor", "Foreign Investor", "An investor offers a grant.",
      .opportunity,
      [⟨"Accept", "Gain funds now", 200⟩,
       ⟨"Decline", "Keep independence", 0⟩]⟩,
   ⟨"ev-sinkhole", "Sinkhole", "A sinkhole opens downtown.",
      .disaster,
      [⟨"Repair", "Pay for repairs", -120⟩,
       ⟨"Fence it off", "Cheap but unpopular", -20⟩]⟩]

/-- The Event Engine's state: at most one pending `GameEvent`. -/
structure EventEngineState where
  pending : Option GameEvent
  deriving DecidableEq, Repr

/-- Modelled from the spec: resolving the pending event with choice
`i` (0 or 1) applies that choice's numeric effect to the treasury and
destroys the event; resolving with no pending event changes nothing. -/
def resolveEvent (st : EventEngineState) (i : Nat) (money : Rat) :
    EventEngineState × Rat :=
  match st.pending with
  | none => (st, money)
  | some e =>
    match e.choices.get? i with
    | none => (st, money)
    | some c => (⟨none⟩, money + c.effect)

-- ---------------------------------------------------------------------------
-- Economic Simulator.  Not among the visible sources; modelled from the
-- spec §4.2.
-- ---------------------------------------------------------------------------

/-- Defensive clamp of a numeric field to `[lo, hi]` (spec §7). -/
def clampQ (lo hi x : Rat) : Rat := max lo (min hi x)

/-- Whether the tile at `(x, y)` holds a Road. -/
def tileIsRoad (g : Grid) (x y : Nat) : Bool :=
  match getTile g x y with
  | some t => t.buildingType = BuildingType.Road
  | none => false

/-- Modelled from the spec: road access as a pure on-demand query over
the four orthogonal neighbours — adjacency to a road tile, never cached
(spec §4.1, glossary). -/
def hasRoadAccess (g : Grid) (x y : Nat) : Bool :=
  tileIsRoad g (x + 1) y || tileIsRoad g x (y + 1) ||
  (decide (0 < x) && tileIsRoad g (x - 1) y) ||
  (decide (0 < y) && tileIsRoad g x (y - 1))

/-- Modelled from the spec: a tile's population contribution, scaled by
road access — an unconnected building contributes a reduced (halved)
population (spec §4.2 step 1). -/
def tilePop (g : Grid) (tile : TileData) : Rat :=
  if hasRoadAccess g tile.x tile.y then (BUILDINGS tile.buildingType).popGen
  else (BUILDINGS tile.buildingType).popGen / 2

/-- Modelled from the spec: a tile's income contribution, scaled by road
access — an unconnected building contributes zero income (spec §4.2
step 1). -/
def tileIncome (g : Grid) (tile : TileData) : Rat :=
  if hasRoadAccess g tile.x tile.y then (BUILDINGS tile.buildingType).incomeGen
  else 0

/-- All tiles of the grid, row by row. -/
def gridTiles (g : Grid) : List TileData := g.flatten

/-- Total road-scaled population contribution of the grid. -/
def gridPop (g : Grid) : Rat := ((gridTiles g).map (tilePop g)).sum

/-- Total road-scaled income of the non-industrial (business) buildings. -/
def gridBusinessIncome (g : Grid) : Rat :=
  (((gridTiles g).filter fun t => t.buildingType ≠ BuildingType.Industrial).map
    (tileIncome g)).sum

/-- Total road-scaled income of the industrial (export) buildings. -/
def gridExportIncome (g : Grid) : Rat :=
  (((gridTiles g).filter fun t => t.buildingType = BuildingType.Industrial).map
    (tileIncome g)).sum

/-- Modelled from the spec: revenue multiplier of the active economic
event — Boom multiplies revenue, Recession divides it (spec §4.2
step 3). -/
def econIncomeFactor : EconomicEvent → Rat
  | .Boom => 3 / 2
  | .Recession => 1 / 2
  | _ => 1

/-- Modelled from the spec: share-price bias of the active economic
event — Recession may crash the share price (spec §4.2 steps 3, 6). -/
def econShareFactor : EconomicEvent → Rat
  | .Boom => 11 / 10
  | .Recession => 1 / 2
  | _ => 1

/-- Modelled from the spec: the one-time fine applied by an Audit. -/
def auditFine : Rat := 100

/-- Modelled from the spec: multiplicative weather modifier on income
(spec §4.4, glossary "Modifier"). -/
def weatherIncomeFactor : WeatherType → Rat
  | .Clear => 1
  | .Rain => 19 / 20
  | .Snow => 9 / 10
  | .AcidRain => 4 / 5
  | .Fog => 19 / 20

/-- Modelled from the spec: the single injectable random source of a
simulation run (spec §9) — a 32-bit linear congruential generator. -/
def rngNext (s : Nat) : Nat := (s * 1664525 + 1013904223) % 4294967296

/-- Modelled from the spec: demographic aging — a fraction of children
becomes adults and of adults becomes seniors each tick, new children are
spawned proportional to the housing surplus, and every component is
clamped to non-negative (spec §4.2 step 4). -/
def stepDemographics (d : Demographics) (pop housing : Rat) : Demographics :=
  let toAdults := d.children / 20
  let toSeniors := d.adults / 30
  let seniorLoss := d.seniors / 40
  let newChildren := max 0 ((housing - pop) / 10)
  ⟨max 0 (d.children - toAdults + newChildren),
   max 0 (d.adults + toAdults - toSeniors),
   max 0 (d.seniors + toSeniors - seniorLoss)⟩

/-- Modelled from the spec: jobs from commercial/industrial buildings and
the unemployment fraction, clamped to `[0, 1]` (spec §4.2 step 2). -/
def stepJobs (g : Grid) (newPop : Rat) : Jobs :=
  let c := 8 * ((countType g .Commercial : Nat) : Rat)
  let i := 12 * ((countType g .Industrial : Nat) : Rat)
  ⟨c, i, c + i, clampQ 0 1 (1 - (c + i) / max 1 newPop)⟩

/-- Modelled from the spec: a weighted moving average pulling a 0–100
stat toward its target, clamped to `[0, 100]` (spec §4.2 step 5). -/
def movingAvg (old target : Rat) : Rat := clampQ 0 100 ((9 * old + target) / 10)

/-- Modelled from the spec: the happiness target, derived from park
coverage, unemployment, crime proxy (shadow economy), supply level and
the active disaster modifier. -/
def happinessTarget (g : Grid) (prev : CityStats) (dMod : Rat) : Rat :=
  clampQ 0 100 (50 + 5 * ((countType g .Park : Nat) : Rat)
    - 40 * prev.jobs.unemployment - 15 * prev.shadowEconomy
    + 10 * prev.supplyLevel - 30 * (1 - dMod))

/-- Modelled from the spec: the education target, derived from school
coverage. -/
def educationTarget (g : Grid) : Rat :=
  clampQ 0 100 (20 + 15 * ((countType g .School : Nat) : Rat))

/-- Modelled from the spec: the safety target, derived from police and
fire-station coverage and the crime proxy. -/
def safetyTarget (g : Grid) (prev : CityStats) : Rat :=
  clampQ 0 100 (30 + 20 * ((countType g .Police : Nat) : Rat)
    + 10 * ((countType g .FireStation : Nat) : Rat) - 30 * prev.shadowEconomy)

/-- The result of one simulator tick: the new snapshot plus the itemized
one-time effects (the Audit fine and the applied event-choice effect)
and the advanced random source. -/
structure TickResult where
  stats : CityStats
  fine : Rat
  eventEffect : Rat
  rng : Nat
  deriving DecidableEq, Repr

/-- Modelled from the spec: `advance(prev, grid, weather, disasterModifier,
pendingEventEffect?)` of the Economic Simulator (spec §4.2), with the
explicit random source threaded through.  Per tick: road-scaled building
contributions, tax/business/export revenue, services/welfare expenses,
economic-event and weather/disaster modifiers, demographic aging with the
population redefined as the sum of its components, clamped moving
averages for happiness/education/safety, loan interest accrual and a
share-price random walk; the new money is the old money plus income
minus expenses, with one-time effects (Audit fine, event-choice effect)
itemized separately in the `TickResult`. -/
def advance (rng : Nat) (prev : CityStats) (g : Grid) (w : WeatherType)
    (dMod : Rat) (evEff : Option Rat) : TickResult :=
  let r1 := rngNext rng
  let r2 := rngNext r1
  let factor := econIncomeFactor prev.activeEvent * weatherIncomeFactor w * dMod
  let strike := prev.activeEvent = EconomicEvent.Strike
  let taxRev := factor * prev.population * prev.taxRate
  let business := if strike then 0 else factor * gridBusinessIncome g
  let exportRev := if strike then 0 else factor * gridExportIncome g
  let services := prev.population / 10
  let welfare := prev.jobs.unemployment * prev.population / 5
  let income := taxRev + business + exportRev
  let expenses := services + welfare + 0
  let fine := if prev.activeEvent = EconomicEvent.Audit then auditFine else 0
  let eventEffect := evEff.getD 0
  let housing := gridPop g
  let demo := stepDemographics prev.demographics prev.population housing
  let newPop := demo.children + demo.adults + demo.seniors
  let drift1 := (((r1 % 11 : Nat) : Rat) - 5) / 100
  let drift2 := (((r2 % 11 : Nat) : Rat) - 5) / 200
  { stats :=
      { money := prev.money + income - expenses - fine + eventEffect
        population := newPop
        day := prev.day + 1
        housingCapacity := housing
        taxRate := prev.taxRate
        happiness := movingAvg prev.happiness (happinessTarget g prev dMod)
        education := movingAvg prev.education (educationTarget g)
        safety := movingAvg prev.safety (safetyTarget g prev)
        budget := ⟨income, expenses, ⟨taxRev, business, exportRev, services, welfare, 0⟩⟩
        demographics := demo
        jobs := stepJobs g newPop
        shadowEconomy := clampQ 0 1 (prev.shadowEconomy + drift2 + (prev.taxRate - 1 / 2) / 50)
        supplyLevel := clampQ 0 1 (prev.supplyLevel + ((countType g .Industrial : Nat) : Rat) / 100 - 1 / 100)
        loanPrincipal := prev.loanPrincipal * (1 + prev.loanInterestRate / 365)
        loanInterestRate := prev.loanInterestRate
        activeEvent := if prev.eventDuration ≤ 1 then EconomicEvent.None else prev.activeEvent
        eventDuration := max 0 (prev.eventDuration - 1)
        sharePrice := max (1 / 100) (prev.sharePrice * (1 + drift1) * econShareFactor prev.activeEvent)
        investmentShares := prev.investmentShares
        investmentAverageCost := prev.investmentAverageCost }
    fine := fine
    eventEffect := eventEffect
    rng := r2 }

/-- The per-tick environment of a run: weather, disaster modifier and
pending event effect for each tick index. -/
abbrev TickEnv := Nat → WeatherType × Rat × Option Rat

/-- First run shape: advance tick `k`, then recurse on the remaining
fuel with the advanced random source. -/
def runSimFrom (env : TickEnv) (g : Grid) (k rng : Nat) (s : CityStats) :
    Nat → CityStats × Nat
  | 0 => (s, rng)
  | n + 1 =>
    let e := env k
    let r := advance rng s g e.1 e.2.1 e.2.2
    runSimFrom env g (k + 1) r.rng r.stats n

/-- One full run of the simulator over `n` ticks from seed `rng`
(front-recursive shape). -/
def runSimA (env : TickEnv) (g : Grid) (rng : Nat) (s : CityStats) (n : Nat) :
    CityStats × Nat :=
  runSimFrom env g 0 rng s n

/-- A second, independently written run of the simulator over `n` ticks
(back-recursive shape): first run `n` ticks, then advance tick `n`. -/
def runSimB (env : TickEnv) (g : Grid) (rng : Nat) (s : CityStats) :
    Nat → CityStats × Nat
  | 0 => (s, rng)
  | n + 1 =>
    let p := runSimB env g rng s n
    let e := env n
    let r := advance p.2 p.1 g e.1 e.2.1 e.2.2
    (r.stats, r.rng)

-- ---------------------------------------------------------------------------
-- Concrete scenario states, used by the witnesses
-- ---------------------------------------------------------------------------

/-- The spec's example scenario grid: an empty 4×4 grid. -/
def emptyGrid4 : Grid := mkEmptyGrid 4 4

/-- The scenario grid after placing a Residential building at `(0, 0)`. -/
def residGrid : Grid := setTileType emptyGrid4 0 0 BuildingType.Residential

/-- The scenario grid after additionally placing a Road at `(0, 1)`. -/
def roadGrid : Grid := setTileType residGrid 0 1 BuildingType.Road

/-- A 2×2 grid with one Commercial building connected to a Road
(the spec's tax/business example). -/
def gridC2 : Grid :=
  [[⟨0, 0, BuildingType.Commercial⟩, ⟨1, 0, BuildingType.Road⟩],
   [⟨0, 1, BuildingType.None⟩, ⟨1, 1, BuildingType.None⟩]]

/-- A concrete pre-tick snapshot with `taxRate = 0.5` (the spec's
tax/business example). -/
def statsC2 : CityStats where
  money := 1000
  population := 100
  day := 1
  housingCapacity := 100
  taxRate := 1 / 2
  happiness := 50
  education := 50
  safety := 50
  budget := ⟨0, 0, ⟨0, 0, 0, 0, 0, 0⟩⟩
  demographics := ⟨20, 60, 20⟩
  jobs := ⟨0, 0, 0, 1 / 10⟩
  shadowEconomy := 1 / 10
  supplyLevel := 1 / 2
  loanPrincipal := 0
  loanInterestRate := 1 / 10
  activeEvent := EconomicEvent.None
  eventDuration := 0
  sharePrice := 10
  investmentShares := 0
  investmentAverageCost := 0

/-- A 2×2 grid already holding three Gold Mines (the catalog cap). -/
def goldGrid : Grid :=
  [[⟨0, 0, BuildingType.GoldMine⟩, ⟨1, 0, BuildingType.GoldMine⟩],
   [⟨0, 1, BuildingType.GoldMine⟩, ⟨1, 1, BuildingType.None⟩]]

/-- A concrete disaster slot in the WARNING stage, triggered at time 0. -/
def dMeteorWarning : ActiveDisaster :=
  ⟨DisasterType.Meteor, none, 0, durationOf DisasterType.Meteor, DisasterStage.WARNING⟩

/-- A concrete advisory event payload. -/
def sampleAIEvent : AIEventResponse :=
  ⟨"Petting Zoo", "A travelling zoo asks for a permit.",
   "Approve", "Small happiness boost", 25, "Refuse", "Nothing happens", 0⟩

-- ---------------------------------------------------------------------------
-- Helper lemmas about the list-update primitives
-- ---------------------------------------------------------------------------

theorem setAt_setAt {α : Type} (l : List α) (i : Nat) (f g : α → α) :
    setAt (setAt l i f) i g = setAt l i fun a => g (f a) := by
  induction l generalizing i with
  | nil => rfl
  | cons a l ih =>
    cases i with
    | zero => rfl
    | succ n => simp [setAt, ih]

theorem setAt_eq_self {α : Type} (l : List α) (i : Nat) (f : α → α)
    (h : ∀ a, l.get? i = some a → f a = a) : setAt l i f = l := by
  induction l generalizing i with
  | nil => rfl
  | cons a l ih =>
    cases i with
    | zero => simpa [setAt] using h a rfl
    | succ n => simp [setAt]; exact ih n fun b hb => h b hb

theorem get?_setAt_self {α : Type} (l : List α) (i : Nat) (f : α → α) :
    (setAt l i f).get? i = (l.get? i).map f := by
  induction l generalizing i with
  | nil => rfl
  | cons a l ih =>
    cases i with
    | zero => rfl
    | succ n => simpa [setAt] using ih n

theorem getTile_setTileType (g : Grid) (x y : Nat) (t : BuildingType) :
    getTile (setTileType g x y t) x y
      = (getTile g x y).map fun tile => { tile with buildingType := t } := by
  unfold getTile setTileType
  rw [get?_setAt_self]
  cases g.get? y with
  | none => rfl
  | some row => simpa using get?_setAt_self row x _

theorem setTileType_setTileType (g : Grid) (x y : Nat) (t t' : BuildingType) :
    setTileType (setTileType g x y t) x y t' = setTileType g x y t' := by
  unfold setTileType
  rw [setAt_setAt]
  apply congrArg
  funext row
  rw [setAt_setAt]

theorem setTileType_eq_self (g : Grid) (x y : Nat) (tile : TileData)
    (h : getTile g x y = some tile) :
    setTileType g x y tile.buildingType = g := by
  unfold setTileType
  apply setAt_eq_self
  intro row hrow
  apply setAt_eq_self
  intro a ha
  have heq : a = tile := by
    have hg : getTile g x y = some a := by
      unfold getTile; rw [hrow]; exact ha
    rw [hg] at h
    injection h
  subst heq
  rfl

-- ---------------------------------------------------------------------------
-- Helper lemmas about the Grid Store
-- ---------------------------------------------------------------------------

theorem place_ok (g : Grid) (x y : Nat) (t : BuildingType) (money : Rat)
    (tile : TileData) (htile : getTile g x y = some tile)
    (hempty : tile.buildingType = BuildingType.None)
    (hafford : (BUILDINGS t).cost ≤ money)
    (hcap : ¬ capReached t g) :
    place g x y t money = .ok (setTileType g x y t) := by
  unfold place
  simp only [htile]
  rw [if_neg (by simp [hempty]), if_neg (not_lt.mpr hafford)]
  cases hma : (BUILDINGS t).maxAllowed with
  | none => rfl
  | some m =>
    show (if m ≤ countType g t then Except.error PlaceError.CapacityExceeded
      else Except.ok (setTileType g x y t)) = Except.ok (setTileType g x y t)
    rw [if_neg ?_]
    intro hle
    exact hcap (by unfold capReached; rw [hma]; exact hle)

theorem place_ok_inv (g : Grid) (x y : Nat) (t : BuildingType) (money : Rat)
    (g' : Grid) (h : place g x y t money = .ok g') :
    ∃ tile, getTile g x y = some tile
      ∧ tile.buildingType = BuildingType.None
      ∧ g' = setTileType g x y t := by
  unfold place at h
  cases hg : getTile g x y with
  | none => rw [hg] at h; cases h
  | some tile =>
    simp only [hg] at h
    by_cases h1 : tile.buildingType = BuildingType.None
    · rw [if_neg (by simp [h1])] at h
      by_cases h2 : money < (BUILDINGS t).cost
      · rw [if_pos h2] at h; cases h
      · rw [if_neg h2] at h
        refine ⟨tile, rfl, h1, ?_⟩
        cases hma : (BUILDINGS t).maxAllowed with
        | none => simp only [hma] at h; exact (Except.ok.injEq .. ▸ h).symm
        | some m =>
          simp only [hma] at h
          by_cases hle : m ≤ countType g t
          · rw [if_pos hle] at h; cases h
          · rw [if_neg hle] at h; exact (Except.ok.injEq .. ▸ h).symm
    · rw [if_pos (by simp [h1])] at h; cases h

/-- C5: a successful `place(x, y, type)` followed immediately by
`demolish(x, y)` restores every tile's `buildingType` to exactly its
prior state — the demolished grid is the original grid — while the money
spent is not refunded: after the pair of transactions the treasury is
still the original money minus the catalog cost. -/
theorem c5_place_demolish_roundtrip (s : CityState) (x y : Nat)
    (t : BuildingType) (s' : CityState)
    (hp : doPlace s x y t = .ok s') (ht : t ≠ BuildingType.None) :
    doDemolish s' x y = .ok ⟨s.grid, s.money - (BUILDINGS t).cost⟩ := by
  unfold doPlace at hp
  cases hpl : place s.grid x y t s.money with
  | error e => rw [hpl] at hp; cases hp
  | ok g' =>
    rw [hpl] at hp
    obtain ⟨tile, hg, hempty, hset⟩ := place_ok_inv _ _ _ _ _ _ hpl
    have hs' : s' = ⟨g', s.money - (BUILDINGS t).cost⟩ := by
      cases hp; rfl
    subst hs' hset
    unfold doDemolish demolish
    have hget : getTile (setTileType s.grid x y t) x y
        = some { tile with buildingType := t } := by
      rw [getTile_setTileType, hg]; rfl
    simp only [hget]
    rw [if_neg (by simpa using ht)]
    have hrestore : setTileType (setTileType s.grid x y t) x y BuildingType.None
        = s.grid := by
      rw [setTileType_setTileType, ← hempty]
      exact setTileType_eq_self s.grid x y tile hg
    simp [Except.map, hrestore]

/-- C7: for a building type whose catalog entry carries a max-allowed
instance count, and a placement request that passes the
`InvalidPlacement` validation (in-range empty tile, sufficient money),
`place` fails with `CapacityExceeded` exactly when the number of tiles
already holding that type has reached the cap, and succeeds on the
capacity check otherwise. -/
theorem c7_capacity_exceeded (g : Grid) (x y : Nat) (t : BuildingType)
    (money : Rat) (m : Nat) (tile : TileData)
    (hm : (BUILDINGS t).maxAllowed = some m)
    (htile : getTile g x y = some tile)
    (hempty : tile.buildingType = BuildingType.None)
    (hafford : (BUILDINGS t).cost ≤ money) :
    (place g x y t money = .error .CapacityExceeded ↔ m ≤ countType g t)
    ∧ (countType g t < m → place g x y t money = .ok (setTileType g x y t)) := by
  constructor
  · unfold place
    simp only [htile]
    rw [if_neg (by simp [hempty]), if_neg (not_lt.mpr hafford)]
    simp only [hm]
    by_cases hle : m ≤ countType g t
    · simp [hle]
    · simp [hle]
  · intro hlt
    apply place_ok g x y t money tile htile hempty hafford
    unfold capReached
    rw [hm]
    exact not_le.mpr hlt

/-- C8: on an in-range empty tile with sufficient money and free
capacity, `place` succeeds even though the tile has no road access —
road access never causes `InvalidPlacement` — and road access only
scales the tick contributions: an unconnected tile contributes zero
income and reduced (halved) population, a connected tile contributes its
full catalog income and population generation. -/
theorem c8_road_access_scales_contributions (g : Grid) (x y : Nat)
    (t : BuildingType) (money : Rat) (tile : TileData)
    (htile : getTile g x y = some tile)
    (hempty : tile.buildingType = BuildingType.None)
    (hafford : (BUILDINGS t).cost ≤ money)
    (hcap : ¬ capReached t g)
    (_hnoroad : hasRoadAccess g x y = false) :
    place g x y t money = .ok (setTileType g x y t)
    ∧ (∀ tl : TileData, hasRoadAccess g tl.x tl.y = false →
        tileIncome g tl = 0
        ∧ tilePop g tl = (BUILDINGS tl.buildingType).popGen / 2)
    ∧ (∀ tl : TileData, hasRoadAccess g tl.x tl.y = true →
        tileIncome g tl = (BUILDINGS tl.buildingType).incomeGen
        ∧ tilePop g tl = (BUILDINGS tl.buildingType).popGen) := by
  refine ⟨place_ok g x y t money tile htile hempty hafford hcap, ?_, ?_⟩
  · intro tl h
    constructor
    · simp [tileIncome, h]
    · simp [tilePop, h]
  · intro tl h
    constructor
    · simp [tileIncome, h]
    · simp [tilePop, h]

theorem isLimitReached_iff (t : BuildingType) (g : Grid) :
    isLimitReached t g = true ↔ capReached t g := by
  cases t <;> simp [isLimitReached, capReached, BUILDINGS]

/-- C9: the toolbar button for `BuildingType.None` is never disabled,
whatever the money (zero and negative included); for every building tool
with positive catalog cost, the button is disabled exactly when money is
strictly below the catalog cost or the per-type max-allowed count is
reached. -/
theorem c9_toolbutton_disabled (money : Rat) (g : Grid) :
    toolDisabled BuildingType.None money g = false
    ∧ ∀ t : BuildingType, 0 < (BUILDINGS t).cost →
        (toolDisabled t money g = true ↔
          money < (BUILDINGS t).cost ∨ capReached t g) := by
  constructor
  · simp [toolDisabled, isLimitReached, BUILDINGS]
  · intro t ht
    have hne : t ≠ BuildingType.None := by
      rintro rfl
      simp only [BUILDINGS] at ht
      exact absurd ht (lt_irrefl 0)
    simp [toolDisabled, canAfford, hne, ← isLimitReached_iff, not_le,
      Bool.or_eq_true, Bool.and_eq_true]

/-- C10: if rendering a child throws, the ErrorBoundary renders the
crash-screen fallback containing that error's string form instead of
propagating the exception; with no error caught it renders its children
unchanged. -/
theorem c10_error_boundary (s : EBState) (e : String) (err : Option String) :
    renderEB (boundaryStep s (Except.error e)) = EBRendered.crashScreen e
    ∧ boundaryStep s (Except.ok ()) = s
    ∧ renderEB ⟨false, err⟩ = EBRendered.childContent := by
  exact ⟨rfl, rfl, rfl⟩

-- ---------------------------------------------------------------------------
-- Helper lemmas for the simulator invariants
-- ---------------------------------------------------------------------------

theorem le_clampQ (lo hi x : Rat) : lo ≤ clampQ lo hi x := le_max_left lo _

theorem clampQ_le (lo hi x : Rat) (h : lo ≤ hi) : clampQ lo hi x ≤ hi :=
  max_le h (min_le_left hi x)

theorem movingAvg_nonneg (a b : Rat) : 0 ≤ movingAvg a b := le_clampQ 0 100 _

theorem movingAvg_le_100 (a b : Rat) : movingAvg a b ≤ 100 :=
  clampQ_le 0 100 _ (by norm_num)

/-- C1: after every tick of the Economic Simulator (on a pre-validated
input, `taxRate ∈ [0, 1]`), the emitted `CityStats` satisfies
`demographics.children + adults + seniors = population`, every 0–100
field (happiness, education, safety) lies in `[0, 100]`, and every 0–1
field (taxRate, shadowEconomy, supplyLevel, jobs.unemployment) lies in
`[0, 1]`. -/
theorem c1_tick_invariants (rng : Nat) (prev : CityStats) (g : Grid)
    (w : WeatherType) (dMod : Rat) (evEff : Option Rat)
    (htax0 : 0 ≤ prev.taxRate) (htax1 : prev.taxRate ≤ 1) :
    ((advance rng prev g w dMod evEff).stats.demographics.children
        + (advance rng prev g w dMod evEff).stats.demographics.adults
        + (advance rng prev g w dMod evEff).stats.demographics.seniors
      = (advance rng prev g w dMod evEff).stats.population)
    ∧ (0 ≤ (advance rng prev g w dMod evEff).stats.happiness
        ∧ (advance rng prev g w dMod evEff).stats.happiness ≤ 100)
    ∧ (0 ≤ (advance rng prev g w dMod evEff).stats.education
        ∧ (advance rng prev g w dMod evEff).stats.education ≤ 100)
    ∧ (0 ≤ (advance rng prev g w dMod evEff).stats.safety
        ∧ (advance rng prev g w dMod evEff).stats.safety ≤ 100)
    ∧ (0 ≤ (advance rng prev g w dMod evEff).stats.taxRate
        ∧ (advance rng prev g w dMod evEff).stats.taxRate ≤ 1)
    ∧ (0 ≤ (advance rng prev g w dMod evEff).stats.shadowEconomy
        ∧ (advance rng prev g w dMod evEff).stats.shadowEconomy ≤ 1)
    ∧ (0 ≤ (advance rng prev g w dMod evEff).stats.supplyLevel
        ∧ (advance rng prev g w dMod evEff).stats.supplyLevel ≤ 1)
    ∧ (0 ≤ (advance rng prev g w dMod evEff).stats.jobs.unemployment
        ∧ (advance rng prev g w dMod evEff).stats.jobs.unemployment ≤ 1) :=
  ⟨rfl,
   ⟨movingAvg_nonneg _ _, movingAvg_le_100 _ _⟩,
   ⟨movingAvg_nonneg _ _, movingAvg_le_100 _ _⟩,
   ⟨movingAvg_nonneg _ _, movingAvg_le_100 _ _⟩,
   ⟨htax0, htax1⟩,
   ⟨le_clampQ 0 1 _, clampQ_le 0 1 _ (by norm_num)⟩,
   ⟨le_clampQ 0 1 _, clampQ_le 0 1 _ (by norm_num)⟩,
   ⟨le_clampQ 0 1 _, clampQ_le 0 1 _ (by norm_num)⟩⟩

/-- Witness for C1: the hypotheses are satisfied by the concrete
snapshot `statsC2` (tax rate one half), and the invariants hold for the
tick computed from it. -/
theorem c1_tick_invariants_witness :
    (0 ≤ statsC2.taxRate ∧ statsC2.taxRate ≤ 1)
    ∧ ((advance 7 statsC2 gridC2 WeatherType.Clear 1 none).stats.demographics.children
        + (advance 7 statsC2 gridC2 WeatherType.Clear 1 none).stats.demographics.adults
        + (advance 7 statsC2 gridC2 WeatherType.Clear 1 none).stats.demographics.seniors
      = (advance 7 statsC2 gridC2 WeatherType.Clear 1 none).stats.population) :=
  ⟨⟨by norm_num [statsC2], by norm_num [statsC2]⟩,
   (c1_tick_invariants 7 statsC2 gridC2 WeatherType.Clear 1 none
     (by norm_num [statsC2]) (by norm_num [statsC2])).1⟩

/-- C2: for every tick, the new money equals the previous money plus
`budget.income` minus `budget.expenses`, apart from the itemized
one-time effects (the Audit fine and the applied event-choice effect);
the income detail categories tax, business and export sum into
`budget.income`; and in the spec's concrete scenario — `taxRate = 0.5`,
one road-connected Commercial building of base income 50 — the tax and
business details are 50 each and the money after the tick equals the
money before plus income minus expenses exactly. -/
theorem c2_money_reconciliation (rng : Nat) (prev : CityStats) (g : Grid)
    (w : WeatherType) (dMod : Rat) (evEff : Option Rat) :
    ((advance rng prev g w dMod evEff).stats.money
      = prev.money + (advance rng prev g w dMod evEff).stats.budget.income
        - (advance rng prev g w dMod evEff).stats.budget.expenses
        - (advance rng prev g w dMod evEff).fine
        + (advance rng prev g w dMod evEff).eventEffect)
    ∧ ((advance rng prev g w dMod evEff).stats.budget.income
      = (advance rng prev g w dMod evEff).stats.budget.details.tax
        + (advance rng prev g w dMod evEff).stats.budget.details.business
        + (advance rng prev g w dMod evEff).stats.budget.details.«export»)
    ∧ ((advance rng prev g w dMod evEff).fine
      = if prev.activeEvent = EconomicEvent.Audit then auditFine else 0)
    ∧ ((advance rng prev g w dMod evEff).eventEffect = evEff.getD 0)
    ∧ (advance 7 statsC2 gridC2 WeatherType.Clear 1 none).stats.budget.details.tax = 50
    ∧ (advance 7 statsC2 gridC2 WeatherType.Clear 1 none).stats.budget.details.business = 50
    ∧ ((advance 7 statsC2 gridC2 WeatherType.Clear 1 none).stats.money
      = statsC2.money
        + (advance 7 statsC2 gridC2 WeatherType.Clear 1 none).stats.budget.income
        - (advance 7 statsC2 gridC2 WeatherType.Clear 1 none).stats.budget.expenses) := by
  refine ⟨rfl, rfl, rfl, rfl, ?_, ?_, ?_⟩
  · simp [advance, statsC2, econIncomeFactor, weatherIncomeFactor]
    norm_num
  · simp [advance, statsC2, gridC2, gridBusinessIncome, gridTiles, tileIncome,
      hasRoadAccess, tileIsRoad, getTile, BUILDINGS, econIncomeFactor,
      weatherIncomeFactor]
  · simp [advance, statsC2, gridC2, gridBusinessIncome, gridExportIncome,
      gridTiles, tileIncome, hasRoadAccess, tileIsRoad, getTile, BUILDINGS,
      econIncomeFactor, weatherIncomeFactor, auditFine]

theorem runSimFrom_succ (env : TickEnv) (g : Grid) (n : Nat) :
    ∀ (k rng : Nat) (s : CityStats),
      runSimFrom env g k rng s (n + 1)
        = ((advance (runSimFrom env g k rng s n).2 (runSimFrom env g k rng s n).1
              g (env (k + n)).1 (env (k + n)).2.1 (env (k + n)).2.2).stats,
           (advance (runSimFrom env g k rng s n).2 (runSimFrom env g k rng s n).1
              g (env (k + n)).1 (env (k + n)).2.1 (env (k + n)).2.2).rng) := by
  induction n with
  | zero => intro k rng s; rfl
  | succ n ih =>
    intro k rng s
    have h1 : runSimFrom env g k rng s (n + 1 + 1)
        = runSimFrom env g (k + 1)
            (advance rng s g (env k).1 (env k).2.1 (env k).2.2).rng
            (advance rng s g (env k).1 (env k).2.1 (env k).2.2).stats (n + 1) := rfl
    have h2 : runSimFrom env g k rng s (n + 1)
        = runSimFrom env g (k + 1)
            (advance rng s g (env k).1 (env k).2.1 (env k).2.2).rng
            (advance rng s g (env k).1 (env k).2.1 (env k).2.2).stats n := rfl
    have h3 : k + 1 + n = k + (n + 1) := by omega
    rw [h1, ih, h2, h3]

/-- C3: the Economic Simulator is deterministic — it consumes only its
explicit inputs and its explicit random source, so two independent runs
(two independently written recursions, `runSimA` and `runSimB`) over any
number of ticks from the same seed, starting snapshot, grid and per-tick
environment produce identical outputs. -/
theorem c3_determinism (env : TickEnv) (g : Grid) (rng : Nat)
    (s : CityStats) (n : Nat) :
    runSimA env g rng s n = runSimB env g rng s n := by
  induction n with
  | zero => rfl
  | succ n ih =>
    unfold runSimA at ih ⊢
    rw [runSimFrom_succ env g n 0 rng s]
    simp only [Nat.zero_add]
    rw [ih]
    rfl

/-- C4: per step of the Disaster Controller, (a) a slot is in WARNING
only freshly triggered out of NONE or retained from WARNING — it is
never re-entered without first reaching NONE; (b) stages advance only
forward through WARNING, ACTIVE, AFTERMATH, NONE; (c) each transition
fires only once the current time has passed the stage boundary, and the
boundaries are strictly later than the stage entry times; (d) the
warning, aftermath and per-type active windows are all positive, so the
four transitions of an episode happen at strictly increasing times;
(e) a trigger while a slot is live is a no-op. -/
theorem c4_disaster_stage_machine (slot : Option ActiveDisaster) (trig : Bool)
    (ty : DisasterType) (pos : Option (Nat × Nat)) (now : Nat) :
    (∀ d', disasterStep slot trig ty pos now = some d' →
        d'.stage = DisasterStage.WARNING →
        (slot = none ∧ d' = ⟨ty, pos, now, durationOf ty, DisasterStage.WARNING⟩)
        ∨ (slot = some d' ∧ d'.stage = DisasterStage.WARNING))
    ∧ (∀ d, slot = some d →
        (d.stage = DisasterStage.WARNING →
          disasterStep slot trig ty pos now = some d
          ∨ disasterStep slot trig ty pos now
              = some { d with stage := DisasterStage.ACTIVE })
        ∧ (d.stage = DisasterStage.ACTIVE →
          disasterStep slot trig ty pos now = some d
          ∨ disasterStep slot trig ty pos now
              = some { d with stage := DisasterStage.AFTERMATH })
        ∧ (d.stage = DisasterStage.AFTERMATH →
          disasterStep slot trig ty pos now = some d
          ∨ disasterStep slot trig ty pos now = none))
    ∧ (∀ d, slot = some d →
        (d.stage = DisasterStage.WARNING →
          disasterStep slot trig ty pos now
              = some { d with stage := DisasterStage.ACTIVE } →
          d.startTime < now ∧ d.startTime + warningWindow ≤ now)
        ∧ (d.stage = DisasterStage.ACTIVE → 0 < d.duration →
          disasterStep slot trig ty pos now
              = some { d with stage := DisasterStage.AFTERMATH } →
          d.startTime + warningWindow < now
          ∧ d.startTime + warningWindow + d.duration ≤ now)
        ∧ (d.stage = DisasterStage.AFTERMATH →
          disasterStep slot trig ty pos now = none →
          d.startTime + warningWindow + d.duration + aftermathWindow ≤ now))
    ∧ (0 < warningWindow ∧ 0 < aftermathWindow
        ∧ ∀ t : DisasterType, 0 < durationOf t)
    ∧ (∀ d, slot = some d →
        disasterStep slot true ty pos now = disasterStep slot false ty pos now) := by
  refine ⟨?_, ?_, ?_, ?_, ?_⟩
  · intro d' h hW
    cases slot with
    | none =>
      by_cases htr : trig
      · left
        simp [disasterStep, htr] at h
        exact ⟨rfl, h.symm⟩
      · simp [disasterStep, htr] at h
    | some d =>
      right
      cases hst : d.stage with
      | WARNING =>
        simp only [disasterStep, hst] at h
        split at h
        · cases h; simp at hW
        · cases h; exact ⟨rfl, hst⟩
      | ACTIVE =>
        simp only [disasterStep, hst] at h
        split at h
        · cases h; simp at hW
        · cases h; rw [hst] at hW; cases hW
      | AFTERMATH =>
        simp only [disasterStep, hst] at h
        split at h
        · cases h
        · cases h; rw [hst] at hW; cases hW
  · rintro d rfl
    refine ⟨?_, ?_, ?_⟩ <;> intro hst <;>
      simp only [disasterStep, hst] <;> split <;> simp
  · rintro d rfl
    have hw : warningWindow = 3 := rfl
    refine ⟨?_, ?_, ?_⟩
    · intro hst hstep
      simp only [disasterStep, hst] at hstep
      split at hstep
      · rename_i hcond
        omega
      · injection hstep with heq
        have h2 : d.stage = DisasterStage.ACTIVE := by rw [heq]
        rw [hst] at h2
        cases h2
    · intro hst hdur hstep
      simp only [disasterStep, hst] at hstep
      split at hstep
      · rename_i hcond
        omega
      · injection hstep with heq
        have h2 : d.stage = DisasterStage.AFTERMATH := by rw [heq]
        rw [hst] at h2
        cases h2
    · intro hst hstep
      simp only [disasterStep, hst] at hstep
      split at hstep
      · rename_i hcond
        exact hcond
      · cases hstep
  · refine ⟨by decide, by decide, ?_⟩
    intro t
    cases t <;> decide
  · rintro d rfl
    cases d.stage <;> rfl

/-- Witness for C4: a Meteor slot triggered at time 0 and stepped at
time 3 enters ACTIVE, strictly after (and exactly at the warning-window
boundary of) its start time. -/
theorem c4_disaster_stage_machine_witness :
    dMeteorWarning.startTime < 3
    ∧ dMeteorWarning.startTime + warningWindow ≤ 3 :=
  ((c4_disaster_stage_machine (some dMeteorWarning) false DisasterType.Meteor
      none 3).2.2.1 dMeteorWarning rfl).1 rfl (by decide)

/-- C6: every `GameEvent` produced by the Event Engine — from the
scripted pool or converted from an advisory payload — has exactly two
choices, each carrying a label, an effect description and a numeric
effect payload (the `EventChoice` fields), and resolving a pending event
with one of its choices applies exactly that choice's numeric effect and
destroys the event (`pending` becomes `none`). -/
theorem c6_event_two_choices :
    (∀ e ∈ scriptedEventPool, e.choices.length = 2)
    ∧ (∀ (eid : String) (r : AIEventResponse),
        (eventFromAI eid r).choices.length = 2)
    ∧ (∀ (st : EventEngineState) (e : GameEvent) (i : Nat) (money : Rat)
        (c : EventChoice),
        st.pending = some e → e.choices.get? i = some c →
        (resolveEvent st i money).1.pending = none
        ∧ (resolveEvent st i money).2 = money + c.effect) := by
  refine ⟨?_, ?_, ?_⟩
  · intro e he
    simp only [scriptedEventPool, List.mem_cons, List.not_mem_nil, or_false] at he
    rcases he with rfl | rfl | rfl <;> rfl
  · intro eid r
    rfl
  · intro st e i money c hp hc
    unfold resolveEvent
    simp only [List.get?_eq_getElem?] at hc
    simp [hp, hc]

/-- Witness for C6: resolving a pending advisory-sourced event with its
first choice clears the pending slot and credits that choice's numeric
effect. -/
theorem c6_event_two_choices_witness :
    (resolveEvent ⟨some (eventFromAI "e1" sampleAIEvent)⟩ 0 100).1.pending = none
    ∧ (resolveEvent ⟨some (eventFromAI "e1" sampleAIEvent)⟩ 0 100).2
        = 100 + (25 : Rat) :=
  c6_event_two_choices.2.2 ⟨some (eventFromAI "e1" sampleAIEvent)⟩
    (eventFromAI "e1" sampleAIEvent) 0 100
    ⟨"Approve", "Small happiness boost", 25⟩ rfl rfl

/-- Witness for C5: on the empty 4×4 grid with 1000 money, placing a
Residential building at `(0, 0)` succeeds, and demolishing it
immediately restores the empty grid while the treasury stays at
1000 minus the catalog cost. -/
theorem c5_place_demolish_roundtrip_witness :
    doPlace ⟨emptyGrid4, 1000⟩ 0 0 BuildingType.Residential = .ok ⟨residGrid, 900⟩
    ∧ doDemolish ⟨residGrid, 900⟩ 0 0
        = .ok ⟨emptyGrid4, (1000 : Rat) - (BUILDINGS BuildingType.Residential).cost⟩ := by
  have hp : doPlace ⟨emptyGrid4, 1000⟩ 0 0 BuildingType.Residential
      = .ok ⟨residGrid, 900⟩ := by
    norm_num [doPlace, place, getTile, emptyGrid4, mkEmptyGrid, residGrid,
      setTileType, BUILDINGS, Except.map]
  exact ⟨hp, c5_place_demolish_roundtrip ⟨emptyGrid4, 1000⟩ 0 0
    BuildingType.Residential ⟨residGrid, 900⟩ hp (by decide)⟩

/-- Witness for C7: the Gold Mine carries a cap of 3, and on a grid
already holding three Gold Mines a further placement on the free tile
fails with `CapacityExceeded`. -/
theorem c7_capacity_exceeded_witness :
    (BUILDINGS BuildingType.GoldMine).maxAllowed = some 3
    ∧ ((place goldGrid 1 1 BuildingType.GoldMine 10000
          = .error .CapacityExceeded)
        ↔ 3 ≤ countType goldGrid BuildingType.GoldMine) :=
  ⟨rfl,
   (c7_capacity_exceeded goldGrid 1 1 BuildingType.GoldMine 10000 3
     ⟨1, 1, BuildingType.None⟩ rfl (by decide) rfl
     (by norm_num [BUILDINGS])).1⟩

/-- Witness for C8: the spec's scenario — on the empty 4×4 grid, a
Residential building placed at `(0, 0)` without road access is accepted;
its income contribution is zero; after a Road is placed at `(0, 1)` its
income contribution is the full catalog value. -/
theorem c8_road_access_scales_contributions_witness :
    hasRoadAccess emptyGrid4 0 0 = false
    ∧ place emptyGrid4 0 0 BuildingType.Residential 1000 = .ok residGrid
    ∧ tileIncome residGrid ⟨0, 0, BuildingType.Residential⟩ = 0
    ∧ hasRoadAccess roadGrid 0 0 = true
    ∧ tileIncome roadGrid ⟨0, 0, BuildingType.Residential⟩
        = (BUILDINGS BuildingType.Residential).incomeGen := by
  refine ⟨by decide, ?_, ?_, by decide, ?_⟩
  · exact (c8_road_access_scales_contributions emptyGrid4 0 0
      BuildingType.Residential 1000 ⟨0, 0, BuildingType.None⟩ (by decide) rfl
      (by norm_num [BUILDINGS]) (by decide) (by decide)).1
  · exact ((c8_road_access_scales_contributions residGrid 2 2
      BuildingType.Residential 1000 ⟨2, 2, BuildingType.None⟩ (by decide) rfl
      (by norm_num [BUILDINGS]) (by decide) (by decide)).2.1
      ⟨0, 0, BuildingType.Residential⟩ (by decide)).1
  · exact ((c8_road_access_scales_contributions roadGrid 3 3
      BuildingType.Residential 1000 ⟨3, 3, BuildingType.None⟩ (by decide) rfl
      (by norm_num [BUILDINGS]) (by decide) (by decide)).2.2
      ⟨0, 0, BuildingType.Residential⟩ (by decide)).1

/-- Witness for C9: with a negative treasury the bulldoze button
(`BuildingType.None`) stays enabled, while the Mansion tool (positive
cost) is disabled exactly when the money is below its cost or its cap is
reached. -/
theorem c9_toolbutton_disabled_witness :
    toolDisabled BuildingType.None (-5) emptyGrid4 = false
    ∧ (0 : Rat) < (BUILDINGS BuildingType.Mansion).cost
    ∧ (toolDisabled BuildingType.Mansion (-5) emptyGrid4 = true ↔
        (-5 : Rat) < (BUILDINGS BuildingType.Mansion).cost
        ∨ capReached BuildingType.Mansion emptyGrid4) :=
  ⟨(c9_toolbutton_disabled (-5) emptyGrid4).1,
   by norm_num [BUILDINGS],
   (c9_toolbutton_disabled (-5) emptyGrid4).2 BuildingType.Mansion
     (by norm_num [BUILDINGS])⟩

end AxiomCity
